import Mathlib

/-!
Verification of the `quack` commit-message generator (`src/main.rs`) against its
natural-language specification.

The program is a sequential CLI pipeline: parse arguments, load a GGUF model,
create an inference context, read a unified diff, build a fixed instructional
prompt, feed it to the engine, stream generated text fragments to standard
output, and report elapsed time.  The inference engine itself (`llama_cpp` 0.3)
is an external capability; it is modelled here through the contract the spec
gives it in §4.2 (a lazy fragment sequence bounded by `max_tokens` or an
end-of-sequence signal, with possible failures at each stage).  Everything in
`main.rs` proper — argument record, prompt template, the order of calls, error
propagation via `?`, the streaming print loop — is embedded directly from the
source.

Modelling conventions:
* Rust `String`/`&str`/`PathBuf` are Lean `String`.
* `f32` fields (`temperature`, `top_p`) are `Rat`; the program never performs
  arithmetic on them, so only their identity matters.
* `i32` is `Int` (the CLI parser enforces the 32-bit range), `usize` is `Nat`.
* Fallible calls are `Except String` carrying the human-readable message that
  `anyhow` would print.
* Wall-clock timing (`Instant::now` / `start.elapsed()`) is not modelled; the
  final `eprintln!` report is recorded as an abstract pipeline step.
-/

/-- Embedding of the `clap`-derived `Args` struct (src/main.rs lines 18–50).
`model` is the GGUF path, `input` the optional diff file (`None` = stdin). -/
structure Args where
  model : String
  max_tokens : Nat
  temperature : Rat
  top_p : Rat
  top_k : Int
  context : Int
  input : Option String
  show_prompt : Bool
deriving DecidableEq

/-- The clap default values: `max_tokens = 96`, `temperature = 0.2`,
`top_p = 0.95`, `top_k = 40`, `context = 4096`, stdin input, prompt not shown
(src/main.rs lines 24, 28, 32, 36, 40). The model path has no default. -/
def defaultArgs (model : String) : Args :=
  { model := model
    max_tokens := 96
    temperature := 0.2
    top_p := 0.95
    top_k := 40
    context := 4096
    input := none
    show_prompt := false }

/-- The `SYSTEM_INSTRUCTIONS` constant (src/main.rs lines 52–60), verbatim.
The Rust raw string ends with a newline. -/
def SYSTEM_INSTRUCTIONS : String :=
  "You are CommitBot, an expert at crafting precise Conventional Commit messages.\n" ++
  "Follow these rules strictly:\n" ++
  "- Output ONLY the commit message, no preamble or explanation.\n" ++
  "- Use Conventional Commits format: type(scope): summary\n" ++
  "- Add a brief body if helpful.\n" ++
  "- Include \"BREAKING CHANGE: ...\" if applicable.\n" ++
  "- Keep summary to <= 72 chars, present-tense, imperative mood.\n" ++
  "- Derive scope from paths in the diff when possible.\n"

/-- The user-turn text of the `build_prompt` template (src/main.rs lines 77–82):
everything strictly between the interpolated `{system}` value and the opening
code fence of the diff block, verbatim. -/
def USER_TURN : String :=
  "\n<|user|>\n" ++
  "Given the following unified git diff, write a single Conventional Commit message.\n" ++
  "Do not include code fences. Do not include \"Message:\" or any explanation.\n" ++
  "If the change is trivial (whitespace/comments), reply with \"chore: minor housekeeping\".\n" ++
  "\nDiff:\n"

/-- The opening fence of the diff block (src/main.rs line 83). The template
never closes this fence. -/
def DIFF_FENCE : String := "```diff\n"

/-- Everything of the `build_prompt` template strictly before the interpolated
`{diff}` value (src/main.rs lines 75–83). -/
def PROMPT_HEAD : String :=
  "<|system|>\n" ++ SYSTEM_INSTRUCTIONS ++ (USER_TURN ++ DIFF_FENCE)

/-- Everything of the `build_prompt` template strictly after the interpolated
`{diff}` value (src/main.rs lines 84–86): a newline, twelve spaces, the
assistant-turn marker, and a final newline. -/
def PROMPT_TAIL : String :=
  "\n            " ++ "<|assistant|>" ++ "\n"

/-- Embedding of `build_prompt` (src/main.rs lines 73–90): the Rust `format!`
call interpolates `SYSTEM_INSTRUCTIONS` and the diff into one fixed template,
which is exactly the concatenation head ++ diff ++ tail. -/
def build_prompt (diff : String) : String :=
  PROMPT_HEAD ++ diff ++ PROMPT_TAIL

/-- Embedding of the Rust cast `args.context as u32` (src/main.rs line 107):
an `i32` to `u32` `as`-cast reinterprets the two's-complement bits, i.e. wraps
modulo 2^32. -/
def i32AsU32 (c : Int) : Nat :=
  (c % 4294967296).toNat

/-- One pull from the engine's completion stream, per the spec's §4.2 engine
contract: either a detokenized text fragment, an end-of-sequence signal, or a
mid-generation engine failure (`SamplingError`) carrying a message. -/
inductive Pull where
  | frag : String → Pull
  | eos : Pull
  | err : String → Pull
deriving DecidableEq

/-- Model of iterating the completion handle's `into_strings()` iterator
(src/main.rs lines 128–139) over an engine emitting `pulls`, with the
`max_tokens` budget the handle was created with: fragments are yielded in
order until the budget is exhausted or the engine signals end-of-sequence.
The iterator's item type in the source is `String`, so a mid-stream engine
failure has no representation in it: the stream simply ends. -/
def into_strings : List Pull → Nat → List String
  | _, 0 => []
  | [], _ + 1 => []
  | Pull.eos :: _, _ + 1 => []
  | Pull.err _ :: _, _ + 1 => []
  | Pull.frag s :: rest, n + 1 => s :: into_strings rest n

/-- The fragment texts of a pull sequence, in order. -/
def frag_texts (l : List Pull) : List String :=
  l.filterMap fun p =>
    match p with
    | Pull.frag s => some s
    | _ => none

/-- Modelled from the spec: the full text "the engine would have produced in
one non-streaming call" (§8) on the same context — per the §4.2 contract, the
engine samples fragments one at a time until `max_tokens` fragments or an
end-of-sequence signal, and the non-streaming result is their concatenation
as a single string. -/
def nonStreamingCompletion : List Pull → Nat → String
  | _, 0 => ""
  | [], _ + 1 => ""
  | Pull.eos :: _, _ + 1 => ""
  | Pull.err _ :: _, _ + 1 => ""
  | Pull.frag s :: rest, n + 1 => s ++ nonStreamingCompletion rest n

/-- Concatenation of a fragment list into one string, in delivery order. -/
def concatList : List String → String
  | [] => ""
  | s :: rest => s ++ concatList rest

/-- The ambient world `main` reads from: a file system (path to contents or a
read-error message) and the result of reading standard input to a string. -/
structure World where
  files : String → Except String String
  stdin : Except String String

/-- Embedding of `read_diff` (src/main.rs lines 62–71): if `--input` was
given, read that file, attaching the `with_context` message on failure;
otherwise read standard input to a string. -/
def read_diff (a : Args) (w : World) : Except String String :=
  match a.input with
  | some path =>
    match w.files path with
    | Except.ok s => Except.ok s
    | Except.error m => Except.error ("reading diff from " ++ path ++ ": " ++ m)
  | none => w.stdin

/-- The sampler configuration handed to the engine. The source constructs
`StandardSampler::default()` (src/main.rs line 124) — the crate's default
sampler, built without reference to any argument — so the only value this
program ever passes is `standardDefault`. -/
inductive SamplerConfig where
  | standardDefault : SamplerConfig
deriving DecidableEq

/-- The external inference engine (`llama_cpp` 0.3), per the spec's §4.2
capability contract: model load, context creation and prompt feeding may each
fail with a message; `start` models `start_completing_with(sampler,
max_tokens)`, which either fails up front or yields the completion handle's
underlying pull sequence. -/
structure Engine where
  load : String → Except String Unit
  createContext : Nat → Except String Unit
  feed : String → Except String Unit
  start : SamplerConfig → Nat → Except String (List Pull)

/-- The observable pipeline steps of `main`, recorded in completion order. -/
inductive Step where
  | loadModel
  | createContext
  | readDiff
  | buildPrompt
  | feedPrompt
  | stream
  | report
deriving DecidableEq

/-- The observable outcome of one program invocation: the process result
(`Except.error` = non-zero exit carrying the `anyhow` message, `Except.ok` =
exit status zero), the fragments printed to standard output in order, the
`out` accumulator built by `push_str`, the lines printed to standard error
(minus the timing line, whose wall-clock content is not modelled), the
completed pipeline steps in order, the `n_ctx` value passed to
`create_session` (if reached), and the sampler passed to
`start_completing_with` (if reached). -/
structure RunResult where
  exit : Except String Unit
  stdout : List String
  out : String
  stderr : List String
  trace : List Step
  nCtx : Option Nat
  samplerPassed : Option SamplerConfig

/-- Embedding of `main` (src/main.rs lines 92–143). The order of operations
is the source's: load the model (96), create the session with
`n_ctx = args.context as u32` (105–110), read the diff (113), build the prompt
(114), optionally dump the prompt to stderr (115–117), feed the prompt (120),
build the default sampler (124), start completion with the sampler and
`args.max_tokens` (128–130), print each string chunk as it arrives while
accumulating `out` (133–139), and report (141).  Every failure before the
loop returns early through `?` with its context message; the loop itself has
no failure path, so once `start_completing_with` has succeeded the function
always returns `Ok(())`. -/
def mainRun (a : Args) (w : World) (e : Engine) : RunResult :=
  match e.load a.model with
  | Except.error m =>
    ⟨Except.error ("loading model: " ++ m), [], "", [], [], none, none⟩
  | Except.ok () =>
    match e.createContext (i32AsU32 a.context) with
    | Except.error m =>
      ⟨Except.error ("creating session: " ++ m), [], "", [],
        [Step.loadModel], some (i32AsU32 a.context), none⟩
    | Except.ok () =>
      match read_diff a w with
      | Except.error m =>
        ⟨Except.error m, [], "", [],
          [Step.loadModel, Step.createContext], some (i32AsU32 a.context), none⟩
      | Except.ok diff =>
        let prompt := build_prompt diff
        let errLines :=
          if a.show_prompt then
            ["--- PROMPT START ---\n" ++ prompt ++ "\n--- PROMPT END ---"]
          else []
        match e.feed prompt with
        | Except.error m =>
          ⟨Except.error ("feeding prompt: " ++ m), [], "", errLines,
            [Step.loadModel, Step.createContext, Step.readDiff, Step.buildPrompt],
            some (i32AsU32 a.context), none⟩
        | Except.ok () =>
          match e.start SamplerConfig.standardDefault a.max_tokens with
          | Except.error m =>
            ⟨Except.error m, [], "", errLines,
              [Step.loadModel, Step.createContext, Step.readDiff, Step.buildPrompt,
                Step.feedPrompt],
              some (i32AsU32 a.context), some SamplerConfig.standardDefault⟩
          | Except.ok pulls =>
            let frags := into_strings pulls a.max_tokens
            ⟨Except.ok (), frags, (frags.foldl String.append ""), errLines,
              [Step.loadModel, Step.createContext, Step.readDiff, Step.buildPrompt,
                Step.feedPrompt, Step.stream, Step.report],
              some (i32AsU32 a.context), some SamplerConfig.standardDefault⟩

/-- The engine-side result of feeding a prompt, per the spec's §4.2 contract. -/
inductive FeedError where
  | tokenization
  | contextOverflow
deriving DecidableEq

/-- The errors of the Generation Session's `submit` operation (spec §4.3). -/
inductive SubmitError where
  | alreadySubmitted
  | tokenization
  | contextOverflow
deriving DecidableEq

/-- The states of the Generation Session lifecycle (spec §3 and §4.3). -/
inductive SessionState where
  | created
  | promptFed
  | streaming
  | completed
  | failed
deriving DecidableEq

/-- Modelled from the spec: the Generation Session's `submit` operation of
§4.3 — the session abstraction exists only in the spec; the source contains
just the single `advance_context` call (src/main.rs line 120).  From
`created`, a successful engine feed moves the session to `promptFed`; a feed
failure moves it to `failed` with the corresponding error.  In any other
state the prompt has already been accepted (or the session is dead) and
`submit` fails with `AlreadySubmittedError`. -/
def submit : SessionState → Except FeedError Unit → SessionState × Except SubmitError Unit
  | SessionState.created, Except.ok () =>
    (SessionState.promptFed, Except.ok ())
  | SessionState.created, Except.error FeedError.tokenization =>
    (SessionState.failed, Except.error SubmitError.tokenization)
  | SessionState.created, Except.error FeedError.contextOverflow =>
    (SessionState.failed, Except.error SubmitError.contextOverflow)
  | st, _ => (st, Except.error SubmitError.alreadySubmitted)

/-- Modelled from the spec: the pipeline order claimed by §2's control-flow
sentence — read diff, build prompt, create the session, feed, stream,
report — stated here only to be compared with the order the code actually
follows. -/
def specClaimedOrder : List Step :=
  [Step.readDiff, Step.buildPrompt, Step.loadModel, Step.createContext,
    Step.feedPrompt, Step.stream, Step.report]

/-- An engine on which every stage succeeds and completion emits `pulls`. -/
def okEngine (pulls : List Pull) : Engine :=
  ⟨fun _ => Except.ok (), fun _ => Except.ok (), fun _ => Except.ok (),
    fun _ _ => Except.ok pulls⟩

/-- A world with no readable files whose standard input holds `s`. -/
def stdinWorld (s : String) : World :=
  ⟨fun _ => Except.error "No such file or directory (os error 2)", Except.ok s⟩

/-! ## Helper lemmas -/

lemma into_strings_length_le (p : List Pull) : ∀ n, (into_strings p n).length ≤ n := by
  induction p with
  | nil => intro n; cases n <;> simp [into_strings]
  | cons hd tl ih =>
    intro n
    cases n with
    | zero => simp [into_strings]
    | succ k =>
      cases hd with
      | frag s => simpa [into_strings] using Nat.succ_le_succ (ih k)
      | eos => simp [into_strings]
      | err m => simp [into_strings]

lemma foldl_append_eq (l : List String) :
    ∀ acc : String, l.foldl String.append acc = acc ++ concatList l := by
  induction l with
  | nil => intro acc; simp [concatList, List.foldl, String.append_empty]
  | cons s rest ih =>
    intro acc
    calc (s :: rest).foldl String.append acc
        = rest.foldl String.append (acc ++ s) := rfl
      _ = (acc ++ s) ++ concatList rest := ih (acc ++ s)
      _ = acc ++ (s ++ concatList rest) := String.append_assoc ..
      _ = acc ++ concatList (s :: rest) := rfl

lemma concat_into_strings_eq (p : List Pull) :
    (∀ q ∈ p, ∀ m, q ≠ Pull.err m) →
    ∀ n, concatList (into_strings p n) = nonStreamingCompletion p n := by
  induction p with
  | nil => intro _ n; cases n <;> simp [into_strings, nonStreamingCompletion, concatList]
  | cons hd tl ih =>
    intro h n
    cases n with
    | zero => simp [into_strings, nonStreamingCompletion, concatList]
    | succ k =>
      cases hd with
      | frag s =>
        have hrec := ih (fun q hq m => h q (List.mem_cons_of_mem _ hq) m) k
        simp [into_strings, nonStreamingCompletion, concatList, hrec]
      | eos => simp [into_strings, nonStreamingCompletion, concatList]
      | err m => exact absurd rfl (h _ (List.mem_cons_self _ _) m)

lemma into_strings_stops_at_err (m : String) (rest : List Pull) :
    ∀ pre : List Pull, (∀ q ∈ pre, ∃ s, q = Pull.frag s) →
    ∀ n, pre.length < n →
    into_strings (pre ++ Pull.err m :: rest) n = frag_texts pre := by
  intro pre
  induction pre with
  | nil =>
    intro _ n hn
    cases n with
    | zero => omega
    | succ k => simp [into_strings, frag_texts]
  | cons hd tl ih =>
    intro h n hn
    obtain ⟨s, hs⟩ := h hd (List.mem_cons_self _ _)
    subst hs
    cases n with
    | zero => omega
    | succ k =>
      have htl : ∀ q ∈ tl, ∃ s, q = Pull.frag s :=
        fun q hq => h q (List.mem_cons_of_mem _ hq)
      have hk : tl.length < k := by simpa using Nat.lt_of_succ_lt_succ hn
      simp [into_strings, frag_texts, ih htl k hk]

lemma mainRun_nCtx (a : Args) (w : World) (e : Engine)
    (h : e.load a.model = Except.ok ()) :
    (mainRun a w e).nCtx = some (i32AsU32 a.context) := by
  unfold mainRun
  rw [h]
  dsimp only
  repeat' split
  all_goals rfl

lemma string_data_empty : ("" : String).data = [] := rfl

/-! ## Claim theorems -/

/-- C2: for every diff text, including the empty string, `build_prompt`
returns the single string consisting of the fixed head of the template — which
carries the full system-instructions block and ends with the opening
diff fence, so the diff sits verbatim inside the fenced block — followed by
the diff, followed by the tail carrying the assistant-turn marker; the empty
diff still yields the full system-instructions block. -/
theorem prompt_template_shape :
    (∀ d : String, build_prompt d = PROMPT_HEAD ++ d ++ PROMPT_TAIL) ∧
    (∃ u v, PROMPT_HEAD.data = u ++ SYSTEM_INSTRUCTIONS.data ++ v) ∧
    (∃ u, PROMPT_HEAD.data = u ++ DIFF_FENCE.data) ∧
    (∃ u v, PROMPT_TAIL.data = u ++ "<|assistant|>".data ++ v) ∧
    (∃ u v, (build_prompt "").data = u ++ SYSTEM_INSTRUCTIONS.data ++ v) := by
  refine ⟨fun d => rfl,
    ⟨"<|system|>\n".data, (USER_TURN ++ DIFF_FENCE).data, ?_⟩,
    ⟨("<|system|>\n" ++ SYSTEM_INSTRUCTIONS ++ USER_TURN).data, ?_⟩,
    ⟨"\n            ".data, "\n".data, ?_⟩,
    ⟨"<|system|>\n".data, ((USER_TURN ++ DIFF_FENCE).data ++ PROMPT_TAIL.data), ?_⟩⟩ <;>
  simp [build_prompt, PROMPT_HEAD, PROMPT_TAIL, String.data_append, string_data_empty]

/-- C8: `build_prompt` is injective — for distinct diffs the prompts differ,
because the diff appears verbatim between a fixed head and a fixed tail. -/
theorem build_prompt_injective (d1 d2 : String) (h : d1 ≠ d2) :
    build_prompt d1 ≠ build_prompt d2 := by
  intro heq
  apply h
  have hdata := congrArg String.data heq
  simp only [build_prompt, String.data_append, List.append_assoc] at hdata
  exact String.ext (List.append_cancel_right (List.append_cancel_left hdata))

/-- Witness for C8 at the concrete diffs "a" and "b". -/
theorem build_prompt_injective_witness :
    build_prompt "a" ≠ build_prompt "b" :=
  build_prompt_injective "a" "b" (by decide)

/-- C9: in every run, at most `max_tokens` fragments reach standard output —
the budget handed to the engine's completion call is `args.max_tokens`, whose
clap default is 96. -/
theorem stream_bounded_by_max_tokens :
    ∀ (a : Args) (w : World) (e : Engine),
      (mainRun a w e).stdout.length ≤ a.max_tokens ∧
      ∀ m : String, (defaultArgs m).max_tokens = 96 := by
  intro a w e
  refine ⟨?_, fun m => rfl⟩
  unfold mainRun
  dsimp only
  repeat' split
  all_goals simp [into_strings_length_le]

/-- C10: the context-window argument is a signed 32-bit integer that the cast
`args.context as u32` wraps modulo 2^32: non-negative values pass through,
negative values gain 2^32, and in particular `-1` is accepted and reaches the
engine's `create_session` call as `n_ctx = 4294967295` instead of being
rejected. -/
theorem context_cast_wraps :
    (∀ c : Int, 0 ≤ c → c < 2147483648 → i32AsU32 c = c.toNat) ∧
    (∀ c : Int, -2147483648 ≤ c → c < 0 → i32AsU32 c = (c + 4294967296).toNat) ∧
    i32AsU32 (-1) = 4294967295 ∧
    ∀ (a : Args) (w : World) (e : Engine), a.context = -1 →
      e.load a.model = Except.ok () → (mainRun a w e).nCtx = some 4294967295 := by
  refine ⟨?_, ?_, by decide, ?_⟩
  · intro c h1 h2
    unfold i32AsU32
    omega
  · intro c h1 h2
    unfold i32AsU32
    omega
  · intro a w e hc hl
    rw [mainRun_nCtx a w e hl, hc]
    decide

/-- Witness for C10: a run whose `--context` is `-1` passes 4294967295. -/
theorem context_cast_wraps_witness :
    i32AsU32 (-1) = 4294967295 ∧
    (mainRun { defaultArgs "model.gguf" with context := -1 } (stdinWorld "")
      (okEngine [Pull.eos])).nCtx = some 4294967295 :=
  ⟨context_cast_wraps.2.2.1, context_cast_wraps.2.2.2 _ _ _ rfl rfl⟩

/-- The run's arguments with the three sampling hyperparameters replaced by
fixed values; `mainRun` never reads them, so erasing them is invisible. -/
def eraseSamplingArgs (a : Args) : Args :=
  { a with temperature := 0, top_p := 0, top_k := 0 }

lemma mainRun_eraseSamplingArgs (a : Args) (w : World) (e : Engine) :
    mainRun a w e = mainRun (eraseSamplingArgs a) w e := rfl

/-- C5: the whole observable run — in particular the sampler configuration
passed to the engine's completion call — does not depend on the temperature,
top-p, or top-k arguments: two invocations agreeing on everything else produce
identical results, and the sampler ever passed is only the engine's default
one. -/
theorem sampler_independent_of_sampling_args
    (a1 a2 : Args) (w : World) (e : Engine)
    (hm : a1.model = a2.model) (hn : a1.max_tokens = a2.max_tokens)
    (hc : a1.context = a2.context) (hi : a1.input = a2.input)
    (hs : a1.show_prompt = a2.show_prompt) :
    mainRun a1 w e = mainRun a2 w e ∧
    ∀ (b : Args) (w2 : World) (e2 : Engine),
      (mainRun b w2 e2).samplerPassed = none ∨
      (mainRun b w2 e2).samplerPassed = some SamplerConfig.standardDefault := by
  constructor
  · have h : eraseSamplingArgs a1 = eraseSamplingArgs a2 := by
      cases a1
      cases a2
      simp_all [eraseSamplingArgs]
    calc mainRun a1 w e = mainRun (eraseSamplingArgs a1) w e :=
          mainRun_eraseSamplingArgs a1 w e
      _ = mainRun (eraseSamplingArgs a2) w e := by rw [h]
      _ = mainRun a2 w e := (mainRun_eraseSamplingArgs a2 w e).symm
  · intro b w2 e2
    unfold mainRun
    dsimp only
    repeat' split
    all_goals simp

/-- Witness for C5: two runs differing only in temperature, top-p and top-k
coincide. -/
theorem sampler_independent_of_sampling_args_witness :
    mainRun { defaultArgs "m.gguf" with temperature := 0.9, top_p := 0.5, top_k := 7 }
        (stdinWorld "d") (okEngine [Pull.frag "x", Pull.eos]) =
      mainRun (defaultArgs "m.gguf") (stdinWorld "d")
        (okEngine [Pull.frag "x", Pull.eos]) :=
  (sampler_independent_of_sampling_args _ _ _ _ rfl rfl rfl rfl rfl).1

/-- The order in which the code completes the pipeline steps (src/main.rs
lines 96, 105, 113, 114, 120, 134, 141): the model is loaded and the session
created before the diff is read. -/
def codeOrder : List Step :=
  [Step.loadModel, Step.createContext, Step.readDiff, Step.buildPrompt,
    Step.feedPrompt, Step.stream, Step.report]

/-- C6 counterexample: on a fully successful run the code's completed-step
trace creates the session (load model, create context) before reading the
diff, so it differs from the order the claim states. -/
theorem pipeline_order_counterexample :
    (mainRun (defaultArgs "m.gguf") (stdinWorld "d") (okEngine [Pull.eos])).trace =
      codeOrder ∧
    (mainRun (defaultArgs "m.gguf") (stdinWorld "d") (okEngine [Pull.eos])).trace ≠
      specClaimedOrder :=
  ⟨rfl, by decide⟩

/-- C6 (amended): the pipeline steps occur in the order the source executes
them — load the model, create the context, then read the diff, build the
prompt, feed the prompt, stream fragments, and report — on every run in which
all stages succeed. -/
theorem pipeline_order
    (a : Args) (w : World) (e : Engine) (d : String) (pulls : List Pull)
    (h1 : e.load a.model = Except.ok ())
    (h2 : e.createContext (i32AsU32 a.context) = Except.ok ())
    (h3 : read_diff a w = Except.ok d)
    (h4 : e.feed (build_prompt d) = Except.ok ())
    (h5 : e.start SamplerConfig.standardDefault a.max_tokens = Except.ok pulls) :
    (mainRun a w e).trace = codeOrder := by
  unfold mainRun
  rw [h1]
  dsimp only
  rw [h2]
  dsimp only
  rw [h3]
  dsimp only
  rw [h4]
  dsimp only
  rw [h5]
  rfl

/-- Witness for C6 (amended) on a concrete successful run. -/
theorem pipeline_order_witness :
    (mainRun (defaultArgs "w.gguf") (stdinWorld "wd")
      (okEngine [Pull.frag "y", Pull.eos])).trace = codeOrder :=
  pipeline_order _ _ _ "wd" [Pull.frag "y", Pull.eos] rfl rfl rfl rfl rfl

/-- C3: a session accepts a prompt at most once — from `created`, once
`submit` has succeeded (reaching `promptFed`), any second `submit` fails with
`AlreadySubmittedError` — and each program invocation feeds at most one
prompt to its single session, exactly one whenever the invocation succeeds. -/
theorem submit_once_invariant :
    (∀ (fr : Except FeedError Unit) (st : SessionState),
      (submit SessionState.created fr).1 = st →
      (submit SessionState.created fr).2 = Except.ok () →
      ∀ fr2, (submit st fr2).2 = Except.error SubmitError.alreadySubmitted) ∧
    ∀ (a : Args) (w : World) (e : Engine),
      (mainRun a w e).trace.count Step.feedPrompt ≤ 1 ∧
      ((mainRun a w e).exit = Except.ok () →
        (mainRun a w e).trace.count Step.feedPrompt = 1) := by
  constructor
  · intro fr st h1 h2 fr2
    cases fr with
    | ok u =>
      cases u
      simp only [submit] at h1
      subst h1
      cases fr2 with
      | ok u2 => cases u2; rfl
      | error fe2 => cases fe2 <;> rfl
    | error fe => cases fe <;> simp [submit] at h2
  · intro a w e
    unfold mainRun
    dsimp only
    repeat' split
    all_goals constructor
    all_goals dsimp only
    all_goals first
      | decide
      | (intro hx; first | decide | simp at hx)

/-- C4: any fatal error before streaming begins — model load failure, context
creation failure, diff-reading failure, prompt-feeding failure, or a failure
starting the completion — makes the process terminate with a non-zero status
carrying an error description, and no generated fragment reaches standard
output. -/
theorem prestream_failure_exits_nonzero
    (a : Args) (w : World) (e : Engine)
    (h : (∃ m, e.load a.model = Except.error m) ∨
         (∃ m, e.createContext (i32AsU32 a.context) = Except.error m) ∨
         (∃ m, read_diff a w = Except.error m) ∨
         (∃ d m, read_diff a w = Except.ok d ∧
            e.feed (build_prompt d) = Except.error m) ∨
         (∃ m, e.start SamplerConfig.standardDefault a.max_tokens =
            Except.error m)) :
    (∃ msg, (mainRun a w e).exit = Except.error msg) ∧
    (mainRun a w e).stdout = [] := by
  cases hl : e.load a.model with
  | error m =>
    unfold mainRun
    rw [hl]
    exact ⟨⟨_, rfl⟩, rfl⟩
  | ok u =>
    cases u
    cases hc : e.createContext (i32AsU32 a.context) with
    | error m =>
      unfold mainRun
      rw [hl]
      dsimp only
      rw [hc]
      exact ⟨⟨_, rfl⟩, rfl⟩
    | ok u2 =>
      cases u2
      cases hr : read_diff a w with
      | error m =>
        unfold mainRun
        rw [hl]
        dsimp only
        rw [hc]
        dsimp only
        rw [hr]
        exact ⟨⟨_, rfl⟩, rfl⟩
      | ok d =>
        cases hf : e.feed (build_prompt d) with
        | error m =>
          unfold mainRun
          rw [hl]
          dsimp only
          rw [hc]
          dsimp only
          rw [hr]
          dsimp only
          rw [hf]
          exact ⟨⟨_, rfl⟩, rfl⟩
        | ok u3 =>
          cases u3
          cases hst : e.start SamplerConfig.standardDefault a.max_tokens with
          | error m =>
            unfold mainRun
            rw [hl]
            dsimp only
            rw [hc]
            dsimp only
            rw [hr]
            dsimp only
            rw [hf]
            dsimp only
            rw [hst]
            exact ⟨⟨_, rfl⟩, rfl⟩
          | ok pulls =>
            exfalso
            rcases h with ⟨m, hm⟩ | ⟨m, hm⟩ | ⟨m, hm⟩ | ⟨d2, m, hd2, hm⟩ | ⟨m, hm⟩
            · rw [hl] at hm
              exact Except.noConfusion hm
            · rw [hc] at hm
              exact Except.noConfusion hm
            · rw [hr] at hm
              exact Except.noConfusion hm
            · rw [hr] at hd2
              injection hd2 with hd3
              subst hd3
              rw [hf] at hm
              exact Except.noConfusion hm
            · rw [hst] at hm
              exact Except.noConfusion hm

/-- An engine whose model load fails with a file-not-found message. -/
def loadFailEngine : Engine :=
  ⟨fun _ => Except.error "No such file or directory", fun _ => Except.ok (),
    fun _ => Except.ok (), fun _ _ => Except.ok []⟩

/-- Witness for C4: a run whose model load fails exits with an error and
prints nothing. -/
theorem prestream_failure_exits_nonzero_witness :
    (∃ msg, (mainRun (defaultArgs "missing.gguf") (stdinWorld "")
      loadFailEngine).exit = Except.error msg) ∧
    (mainRun (defaultArgs "missing.gguf") (stdinWorld "")
      loadFailEngine).stdout = [] :=
  prestream_failure_exits_nonzero _ _ _
    (Or.inl ⟨"No such file or directory", rfl⟩)

/-- C7: on a successful run over an engine emitting a fixed, failure-free
fragment sequence, the fragments streamed to standard output, concatenated in
delivery order — which is also the `out` accumulator the loop builds with
`push_str` — equal the full text the engine would have produced in one
non-streaming completion call with the same budget. -/
theorem streaming_concat_eq_nonstreaming
    (a : Args) (w : World) (e : Engine) (d : String) (pulls : List Pull)
    (h1 : e.load a.model = Except.ok ())
    (h2 : e.createContext (i32AsU32 a.context) = Except.ok ())
    (h3 : read_diff a w = Except.ok d)
    (h4 : e.feed (build_prompt d) = Except.ok ())
    (h5 : e.start SamplerConfig.standardDefault a.max_tokens = Except.ok pulls)
    (h6 : ∀ q ∈ pulls, ∀ m, q ≠ Pull.err m) :
    concatList (mainRun a w e).stdout = nonStreamingCompletion pulls a.max_tokens ∧
    (mainRun a w e).out = concatList (mainRun a w e).stdout := by
  unfold mainRun
  rw [h1]
  dsimp only
  rw [h2]
  dsimp only
  rw [h3]
  dsimp only
  rw [h4]
  dsimp only
  rw [h5]
  dsimp only
  refine ⟨concat_into_strings_eq pulls h6 a.max_tokens, ?_⟩
  rw [foldl_append_eq]
  exact String.empty_append _

/-- Witness for C7 on a concrete two-fragment completion. -/
theorem streaming_concat_eq_nonstreaming_witness :
    concatList (mainRun (defaultArgs "c7.gguf") (stdinWorld "cd")
        (okEngine [Pull.frag "feat", Pull.frag ": add streaming", Pull.eos])).stdout =
      nonStreamingCompletion [Pull.frag "feat", Pull.frag ": add streaming", Pull.eos] 96 :=
  (streaming_concat_eq_nonstreaming (defaultArgs "c7.gguf") (stdinWorld "cd")
    (okEngine [Pull.frag "feat", Pull.frag ": add streaming", Pull.eos]) "cd"
    [Pull.frag "feat", Pull.frag ": add streaming", Pull.eos]
    rfl rfl rfl rfl rfl
    (by
      intro q hq m
      simp only [List.mem_cons, List.not_mem_nil, or_false] at hq
      rcases hq with rfl | rfl | rfl <;> simp)).1

/-- C1 counterexample: with an engine that raises a sampling failure on the
third pull, after two fragments, the two fragments stay on standard output —
but the process result is `Except.ok`, exit status zero: the mid-stream error
is not surfaced to the caller, contradicting the claimed non-zero
termination. -/
theorem midstream_error_exit_ok_counterexample :
    (mainRun (defaultArgs "c1.gguf") (stdinWorld "c1d")
        (okEngine [Pull.frag "f1", Pull.frag "f2", Pull.err "sampling failure",
          Pull.frag "f3"])).stdout = ["f1", "f2"] ∧
    (mainRun (defaultArgs "c1.gguf") (stdinWorld "c1d")
        (okEngine [Pull.frag "f1", Pull.frag "f2", Pull.err "sampling failure",
          Pull.frag "f3"])).exit = Except.ok () :=
  ⟨rfl, rfl⟩

/-- C1 (amended): if the engine fails mid-stream after delivering some
fragments within budget, exactly the fragments delivered before the failure
remain on standard output — partial output is not retracted — but the failure
is invisible to the driver: the `String` iterator simply ends, so the process
still terminates successfully (exit status zero) without surfacing the
error. -/
theorem midstream_error_partial_output
    (a : Args) (w : World) (e : Engine) (d : String)
    (pre rest : List Pull) (m : String)
    (h1 : e.load a.model = Except.ok ())
    (h2 : e.createContext (i32AsU32 a.context) = Except.ok ())
    (h3 : read_diff a w = Except.ok d)
    (h4 : e.feed (build_prompt d) = Except.ok ())
    (h5 : e.start SamplerConfig.standardDefault a.max_tokens =
      Except.ok (pre ++ Pull.err m :: rest))
    (h6 : ∀ q ∈ pre, ∃ s, q = Pull.frag s)
    (h7 : pre.length < a.max_tokens) :
    (mainRun a w e).stdout = frag_texts pre ∧
    (mainRun a w e).exit = Except.ok () := by
  unfold mainRun
  rw [h1]
  dsimp only
  rw [h2]
  dsimp only
  rw [h3]
  dsimp only
  rw [h4]
  dsimp only
  rw [h5]
  dsimp only
  exact ⟨into_strings_stops_at_err m rest pre h6 a.max_tokens h7, rfl⟩

/-- Witness for C1 (amended): an engine failing on the third pull leaves the
first two fragments on standard output and the process exits zero. -/
theorem midstream_error_partial_output_witness :
    (mainRun (defaultArgs "w1.gguf") (stdinWorld "wd1")
        (okEngine [Pull.frag "g1", Pull.frag "g2", Pull.err "boom"])).stdout =
      frag_texts [Pull.frag "g1", Pull.frag "g2"] ∧
    (mainRun (defaultArgs "w1.gguf") (stdinWorld "wd1")
        (okEngine [Pull.frag "g1", Pull.frag "g2", Pull.err "boom"])).exit =
      Except.ok () :=
  midstream_error_partial_output _ _ _ "wd1"
    [Pull.frag "g1", Pull.frag "g2"] [] "boom"
    rfl rfl rfl rfl rfl
    (by
      intro q hq
      simp only [List.mem_cons, List.not_mem_nil, or_false] at hq
      rcases hq with rfl | rfl
      · exact ⟨"g1", rfl⟩
      · exact ⟨"g2", rfl⟩)
    (by decide)

/-- Witness for C3: a second `submit` on a session that has already accepted
its prompt fails with `AlreadySubmittedError`, and a concrete successful run
feeds exactly one prompt. -/
theorem submit_once_invariant_witness :
    (submit SessionState.promptFed (Except.ok ())).2 =
      Except.error SubmitError.alreadySubmitted ∧
    (mainRun (defaultArgs "w3.gguf") (stdinWorld "wd3")
      (okEngine [Pull.eos])).trace.count Step.feedPrompt = 1 :=
  ⟨submit_once_invariant.1 (Except.ok ()) SessionState.promptFed rfl rfl
      (Except.ok ()),
    (submit_once_invariant.2 (defaultArgs "w3.gguf") (stdinWorld "wd3")
      (okEngine [Pull.eos])).2 rfl⟩
